import Mathlib

/-!
Verification of the Mullvad daemon settings module
(`mullvad-types/src/settings/mod.rs`): the versioned settings aggregate,
its schema-version tag with strict decode validation, the mutators that
report whether they changed state, and the serde-derived decoding with
`#[serde(default)]` (default-on-absence) semantics.

External collaborator types from `relay_constraints` and `talpid_types`
(relay settings, bridge settings, obfuscation, tunnel sub-options) are not
part of the sampled source; they are modelled from the specification as
opaque values with just the structure the settings module touches.
The embedding targets the desktop (non-Windows, non-Android) build: no
`split_tunnel` field and `enable_ipv6` defaulting to `false`.
-/

namespace Mullvad

/-- Schema-version tag of the settings document.  Mirrors
`enum SettingsVersion { V2 = 2, V3 = 3, V4 = 4, V5 = 5, V6 = 6 }`. -/
inductive SettingsVersion
| V2
| V3
| V4
| V5
| V6
deriving DecidableEq, Repr

/-- The explicit `#[repr(u32)]` discriminant of each variant: the value of
the Rust cast `v as u32`. -/
def SettingsVersion.asU32 : SettingsVersion → Nat
| .V2 => 2
| .V3 => 3
| .V4 => 4
| .V5 => 5
| .V6 => 6

/-- `Serialize for SettingsVersion`: `serializer.serialize_u32(*self as u32)`,
i.e. the tag encodes as the bare unsigned integer discriminant. -/
def SettingsVersion.serialize (v : SettingsVersion) : Nat :=
  v.asU32

/-- `Deserialize for SettingsVersion`: deserialize a `u32`, then accept it
iff it equals one of the five discriminants, else fail with the
`"{} is not a valid SettingsVersion"` error carrying the value. -/
def SettingsVersion.deserialize (n : Nat) : Except String SettingsVersion :=
  if n = SettingsVersion.asU32 .V2 then .ok .V2
  else if n = SettingsVersion.asU32 .V3 then .ok .V3
  else if n = SettingsVersion.asU32 .V4 then .ok .V4
  else if n = SettingsVersion.asU32 .V5 then .ok .V5
  else if n = SettingsVersion.asU32 .V6 then .ok .V6
  else .error (toString n ++ " is not a valid SettingsVersion")

/-- Declaration index of each variant (top variant first).  The derived
`PartialOrd` on a fieldless Rust enum orders variants by declaration
position, top to bottom. -/
def SettingsVersion.declIndex : SettingsVersion → Nat
| .V2 => 0
| .V3 => 1
| .V4 => 2
| .V5 => 3
| .V6 => 4

/-- The derived `PartialOrd::le` on `SettingsVersion`: comparison in
declaration order of the variants. -/
def SettingsVersion.le (a b : SettingsVersion) : Prop :=
  a.declIndex ≤ b.declIndex

instance : DecidablePred (fun p : SettingsVersion × SettingsVersion => SettingsVersion.le p.1 p.2) :=
  fun p => inferInstanceAs (Decidable (p.1.declIndex ≤ p.2.declIndex))

instance (a b : SettingsVersion) : Decidable (SettingsVersion.le a b) :=
  inferInstanceAs (Decidable (a.declIndex ≤ b.declIndex))

/-- `CURRENT_SETTINGS_VERSION`: the version used by the current code. -/
def CURRENT_SETTINGS_VERSION : SettingsVersion := .V6

/-- C4: every unsigned integer (`u32`) outside {2,3,4,5,6} fails to decode
as a `SettingsVersion`, with an error naming the offending value; every
integer in that set decodes to the tag with that discriminant. -/
theorem c4_deserialize_version_cases (n : Nat) (h : n < 2 ^ 32) :
    (n ∉ ([2, 3, 4, 5, 6] : List Nat) →
      SettingsVersion.deserialize n =
        Except.error (toString n ++ " is not a valid SettingsVersion")) ∧
    (n ∈ ([2, 3, 4, 5, 6] : List Nat) →
      ∃ v, SettingsVersion.deserialize n = Except.ok v ∧ v.asU32 = n) := by
  constructor
  · intro hn
    simp only [List.mem_cons, List.not_mem_nil, or_false, not_or] at hn
    obtain ⟨h2, h3, h4, h5, h6⟩ := hn
    simp [SettingsVersion.deserialize, SettingsVersion.asU32, h2, h3, h4, h5, h6]
  · intro hn
    simp only [List.mem_cons, List.not_mem_nil, or_false] at hn
    rcases hn with rfl | rfl | rfl | rfl | rfl
    · exact ⟨.V2, rfl, rfl⟩
    · exact ⟨.V3, rfl, rfl⟩
    · exact ⟨.V4, rfl, rfl⟩
    · exact ⟨.V5, rfl, rfl⟩
    · exact ⟨.V6, rfl, rfl⟩

/-- Witness for C4 at the concrete inputs 99 (rejected, error names 99)
and 6 (accepted). -/
theorem c4_deserialize_version_cases_witness :
    SettingsVersion.deserialize 99 =
      Except.error (toString (99 : Nat) ++ " is not a valid SettingsVersion") ∧
    (∃ v, SettingsVersion.deserialize 6 = Except.ok v ∧ v.asU32 = 6) :=
  ⟨(c4_deserialize_version_cases 99 (by decide)).1 (by decide),
   (c4_deserialize_version_cases 6 (by decide)).2 (by decide)⟩

/-- C7: for every version tag, decoding the integer produced by encoding it
yields the tag again: `deserialize (serialize v) = ok v`. -/
theorem c7_version_roundtrip (v : SettingsVersion) :
    SettingsVersion.deserialize v.serialize = Except.ok v := by
  cases v <;> rfl

/-- C9: the derived comparison order on `SettingsVersion` is a total order
that agrees with numeric order of the encoded ordinals: `v ≤ w` in the
derived order iff `serialize v ≤ serialize w`. -/
theorem c9_version_order :
    (∀ v w : SettingsVersion, SettingsVersion.le v w ↔ v.serialize ≤ w.serialize) ∧
    (∀ v w : SettingsVersion, SettingsVersion.le v w ∨ SettingsVersion.le w v) ∧
    (∀ v w : SettingsVersion,
      SettingsVersion.le v w → SettingsVersion.le w v → v = w) ∧
    (∀ u v w : SettingsVersion,
      SettingsVersion.le u v → SettingsVersion.le v w → SettingsVersion.le u w) := by
  refine ⟨?_, ?_, ?_, ?_⟩
  · intro v w
    cases v <;> cases w <;> decide
  · intro v w
    cases v <;> cases w <;> decide
  · intro v w
    cases v <;> cases w <;> decide
  · intro u v w
    cases u <;> cases v <;> cases w <;> decide

/-- Modelled from the spec: `Constraint` from the external `relay_constraints`
module — either unconstrained or a single required value. -/
inductive Constraint (α : Type)
| Any
| Only (a : α)
deriving DecidableEq

/-- Modelled from the spec: `LocationConstraint` from `relay_constraints`;
only the country form used by the default factory is modelled. -/
inductive LocationConstraint
| Country (code : String)
deriving DecidableEq

/-- Modelled from the spec: `RelayConstraints` from `relay_constraints`;
of its fields only `location` is touched by the settings module (the
default factory fills the rest with their own defaults, modelled as
absent here). -/
structure RelayConstraints where
  location : Constraint LocationConstraint := .Any
deriving DecidableEq

/-- Modelled from the spec: `RelaySettings` from `relay_constraints`, an
opaque variant tree; only the `Normal` constraint form used by the default
factory is modelled. -/
inductive RelaySettings
| Normal (constraints : RelayConstraints)
deriving DecidableEq

/-- Modelled from the spec: opaque `BridgeConstraints` from
`relay_constraints`. -/
structure BridgeConstraints where
deriving DecidableEq

/-- Modelled from the spec: `BridgeSettings` from `relay_constraints`; only
the `Normal` form used by the default factory is modelled. -/
inductive BridgeSettings
| Normal (constraints : BridgeConstraints)
deriving DecidableEq

/-- Modelled from the spec: `SelectedObfuscation` from `relay_constraints`;
obfuscation is `Off` in the default aggregate. -/
inductive SelectedObfuscation
| Auto
| Off
deriving DecidableEq

/-- Modelled from the spec: `ObfuscationSettings` from `relay_constraints`;
only the `selected_obfuscation` field touched by the default factory is
modelled. -/
structure ObfuscationSettings where
  selected_obfuscation : SelectedObfuscation := .Auto
deriving DecidableEq

/-- Modelled from the spec: `BridgeState` from `relay_constraints` — the
closed policy enum {Auto, On, Off} for bridge usage. -/
inductive BridgeState
| Auto
| On
| Off
deriving DecidableEq

/-- Modelled from the spec: opaque OpenVPN tunnel options
(`talpid_types::net::openvpn::TunnelOptions`). -/
structure OpenVpnTunnelOptions where
deriving DecidableEq

/-- Modelled from the spec: opaque base WireGuard options
(`talpid_types::net::wireguard::TunnelOptions`). -/
structure WireguardBaseOptions where
deriving DecidableEq

/-- Modelled from the spec: `wireguard::TunnelOptions` of `mullvad-types` —
opaque base options plus an optional key-rotation interval. -/
structure WireguardTunnelOptions where
  options : WireguardBaseOptions
  rotation_interval : Option Nat
deriving DecidableEq

/-- Modelled from the spec: `GenericTunnelOptions` from `talpid_types::net`
— currently just the IPv6-enable flag. -/
structure GenericTunnelOptions where
  enable_ipv6 : Bool
deriving DecidableEq

/-- Modelled from the spec: opaque DNS options (`dns::DnsOptions`). -/
structure DnsOptions where
deriving DecidableEq

/-- `TunnelOptions`: configuration applying to all kinds of tunnels,
aggregating the per-protocol blocks. -/
structure TunnelOptions where
  openvpn : OpenVpnTunnelOptions
  wireguard : WireguardTunnelOptions
  generic : GenericTunnelOptions
  dns_options : DnsOptions
deriving DecidableEq

/-- `Default for TunnelOptions`: default sub-blocks, `rotation_interval`
absent, and IPv6 enabled only on Android (`false` in the desktop build
embedded here). -/
def TunnelOptions.default : TunnelOptions :=
  { openvpn := {}
    wireguard := { options := {}, rotation_interval := none }
    generic := { enable_ipv6 := false }
    dns_options := {} }

/-- The `Settings` aggregate (desktop build: no `split_tunnel` field),
generic over the opaque relay-settings value type `RS` so that theorems
about the mutators quantify over every external relay-settings type. -/
structure Settings (RS : Type) where
  relay_settings : RS
  bridge_settings : BridgeSettings
  obfuscation_settings : ObfuscationSettings
  bridge_state : BridgeState
  allow_lan : Bool
  block_when_disconnected : Bool
  auto_connect : Bool
  tunnel_options : TunnelOptions
  show_beta_releases : Bool
  settings_version : SettingsVersion
deriving DecidableEq

/-- `Default for Settings`: the canonical default aggregate — relay
constrained to country "se", bridge settings normal/default, obfuscation
`Off`, bridge state `Auto`, all booleans `false`, default tunnel options,
stamped `CURRENT_SETTINGS_VERSION`. -/
def Settings.default : Settings RelaySettings :=
  { relay_settings := .Normal { location := .Only (.Country "se") }
    bridge_settings := .Normal {}
    obfuscation_settings := { selected_obfuscation := .Off }
    bridge_state := .Auto
    allow_lan := false
    block_when_disconnected := false
    auto_connect := false
    tunnel_options := TunnelOptions.default
    show_beta_releases := false
    settings_version := CURRENT_SETTINGS_VERSION }

/-- `Settings::update_relay_settings`: merge the update into the current
relay settings (via the external, opaque `merge`); if the result differs,
first repair invariant I1 — bridge state `On` with a non-bridge-compatible
update falls back to `Auto` — then commit the merged settings and report
`true`; otherwise report `false` and change nothing.  The external
collaborators `merge` and `supports_bridge` are passed as parameters. -/
def Settings.update_relay_settings {RS RSU : Type} [DecidableEq RS]
    (merge : RS → RSU → RS) (supports_bridge : RSU → Bool)
    (s : Settings RS) (update : RSU) : Bool × Settings RS :=
  let update_supports_bridge := supports_bridge update
  let new_settings := merge s.relay_settings update
  if s.relay_settings ≠ new_settings then
    let s1 :=
      if update_supports_bridge = false ∧ BridgeState.On = s.bridge_state then
        { s with bridge_state := BridgeState.Auto }
      else s
    (true, { s1 with relay_settings := new_settings })
  else
    (false, s)

/-- `Settings::set_bridge_state`: store the new bridge state and report
`true` iff it differs from the current one; otherwise a no-op reporting
`false`. -/
def Settings.set_bridge_state {RS : Type} (s : Settings RS)
    (bridge_state : BridgeState) : Bool × Settings RS :=
  if s.bridge_state ≠ bridge_state then
    (true, { s with bridge_state := bridge_state })
  else
    (false, s)

/-- A concrete settings state with bridge state `On`, over `Nat` as the
opaque relay-settings type, used to witness the mutator theorems. -/
def sampleOn : Settings Nat :=
  { relay_settings := 0
    bridge_settings := .Normal {}
    obfuscation_settings := { selected_obfuscation := .Off }
    bridge_state := .On
    allow_lan := false
    block_when_disconnected := false
    auto_connect := false
    tunnel_options := TunnelOptions.default
    show_beta_releases := false
    settings_version := .V6 }

/-- A concrete settings state with bridge state `Off`, used to witness the
frame theorems. -/
def sampleOff : Settings Nat :=
  { sampleOn with bridge_state := .Off }

/-- C2: from a state with bridge state `On`, an update whose merge result
differs from the current relay settings makes `update_relay_settings`
report `true` and store the merge result; the bridge state becomes `Auto`
when the update does not support bridges, and stays `On` when it does. -/
theorem c2_update_relay_settings_changes {RS RSU : Type} [DecidableEq RS]
    (merge : RS → RSU → RS) (supports_bridge : RSU → Bool)
    (s : Settings RS) (update : RSU)
    (hOn : s.bridge_state = BridgeState.On)
    (hNe : merge s.relay_settings update ≠ s.relay_settings) :
    (Settings.update_relay_settings merge supports_bridge s update).1 = true ∧
    (Settings.update_relay_settings merge supports_bridge s update).2.relay_settings
      = merge s.relay_settings update ∧
    (supports_bridge update = false →
      (Settings.update_relay_settings merge supports_bridge s update).2.bridge_state
        = BridgeState.Auto) ∧
    (supports_bridge update = true →
      (Settings.update_relay_settings merge supports_bridge s update).2.bridge_state
        = BridgeState.On) := by
  have hcond : s.relay_settings ≠ merge s.relay_settings update :=
    fun h => hNe h.symm
  cases hsb : supports_bridge update with
  | false => simp [Settings.update_relay_settings, hcond, hsb, hOn]
  | true => simp [Settings.update_relay_settings, hcond, hsb, hOn]

/-- Witness for C2 at a concrete state and update: bridge `On`, merge
result `1` over current `0`, update not supporting bridges. -/
theorem c2_update_relay_settings_changes_witness :
    (Settings.update_relay_settings (fun _ _ => (1 : Nat)) (fun _ : Unit => false)
      sampleOn ()).1 = true ∧
    (Settings.update_relay_settings (fun _ _ => (1 : Nat)) (fun _ : Unit => false)
      sampleOn ()).2.bridge_state = BridgeState.Auto :=
  ⟨(c2_update_relay_settings_changes (fun _ _ => (1 : Nat)) (fun _ : Unit => false)
      sampleOn () rfl (by decide)).1,
   (c2_update_relay_settings_changes (fun _ _ => (1 : Nat)) (fun _ : Unit => false)
      sampleOn () rfl (by decide)).2.2.1 rfl⟩

/-- C3: when the merge result equals the current relay settings,
`update_relay_settings` reports `false` and changes nothing — the
returned state is the input state, so `relay_settings` and `bridge_state`
are untouched even when the update does not support bridges and the
bridge is `On`. -/
theorem c3_update_relay_settings_noop {RS RSU : Type} [DecidableEq RS]
    (merge : RS → RSU → RS) (supports_bridge : RSU → Bool)
    (s : Settings RS) (update : RSU)
    (hEq : merge s.relay_settings update = s.relay_settings) :
    Settings.update_relay_settings merge supports_bridge s update = (false, s) := by
  simp [Settings.update_relay_settings, hEq]

/-- Witness for C3: identity merge over state `sampleOn` (bridge `On`,
update not supporting bridges) reports `false` and returns the state
unchanged. -/
theorem c3_update_relay_settings_noop_witness :
    Settings.update_relay_settings (fun r _ => r) (fun _ : Unit => false)
      sampleOn () = (false, sampleOn) :=
  c3_update_relay_settings_noop (fun r _ => r) (fun _ : Unit => false)
    sampleOn () rfl

/-- C6: `set_bridge_state new` stores `new` and reports `true` exactly when
`new` differs from the current bridge state, and otherwise changes nothing
and reports `false`; of two consecutive calls with the same argument the
second always reports `false`. -/
theorem c6_set_bridge_state_spec {RS : Type} (s : Settings RS) (b : BridgeState) :
    (b ≠ s.bridge_state →
      Settings.set_bridge_state s b = (true, { s with bridge_state := b })) ∧
    (b = s.bridge_state → Settings.set_bridge_state s b = (false, s)) ∧
    (Settings.set_bridge_state (Settings.set_bridge_state s b).2 b).1 = false := by
  refine ⟨?_, ?_, ?_⟩
  · intro hne
    have h : s.bridge_state ≠ b := fun h => hne h.symm
    simp [Settings.set_bridge_state, h]
  · intro heq
    simp [Settings.set_bridge_state, heq]
  · by_cases h : s.bridge_state = b
    · simp [Settings.set_bridge_state, h]
    · simp [Settings.set_bridge_state, h]

/-- Witness for C6: setting `Off` on a state with bridge `On` stores it and
reports `true`; setting `On` again on `sampleOn` reports `false`; the
second of two consecutive identical calls reports `false`. -/
theorem c6_set_bridge_state_spec_witness :
    Settings.set_bridge_state sampleOn .Off = (true, sampleOff) ∧
    Settings.set_bridge_state sampleOn .On = (false, sampleOn) ∧
    (Settings.set_bridge_state (Settings.set_bridge_state sampleOn .Off).2 .Off).1
      = false :=
  ⟨(c6_set_bridge_state_spec sampleOn .Off).1 (by decide),
   (c6_set_bridge_state_spec sampleOn .On).2.1 rfl,
   (c6_set_bridge_state_spec sampleOn .Off).2.2⟩

/-- C10: `update_relay_settings` leaves the bridge state unchanged whenever
it is not `On`, and in general only ever keeps the bridge state or resets
it to `Auto` — in particular it never turns the bridge `On`. -/
theorem c10_update_preserves_bridge {RS RSU : Type} [DecidableEq RS]
    (merge : RS → RSU → RS) (supports_bridge : RSU → Bool)
    (s : Settings RS) (update : RSU) :
    (s.bridge_state ≠ BridgeState.On →
      (Settings.update_relay_settings merge supports_bridge s update).2.bridge_state
        = s.bridge_state) ∧
    ((Settings.update_relay_settings merge supports_bridge s update).2.bridge_state
        = s.bridge_state ∨
     (Settings.update_relay_settings merge supports_bridge s update).2.bridge_state
        = BridgeState.Auto) := by
  by_cases hc : s.relay_settings = merge s.relay_settings update
  · simp [Settings.update_relay_settings, hc.symm]
  · by_cases hb : supports_bridge update = false ∧ BridgeState.On = s.bridge_state
    · constructor
      · intro hOn
        exact absurd hb.2.symm hOn
      · right
        simp [Settings.update_relay_settings, hc, hb]
    · simp [Settings.update_relay_settings, hc, hb]

/-- Witness for C10 at a concrete state with bridge `Off` and a changing,
non-bridge-compatible update: the bridge state stays `Off`. -/
theorem c10_update_preserves_bridge_witness :
    (Settings.update_relay_settings (fun _ _ => (1 : Nat)) (fun _ : Unit => false)
      sampleOff ()).2.bridge_state = sampleOff.bridge_state :=
  (c10_update_preserves_bridge (fun _ _ => (1 : Nat)) (fun _ : Unit => false)
    sampleOff ()).1 (by decide)

/-- A persisted settings document as seen by the derived deserializer:
each field of `Settings` is either present (already decoded to its value
type, since the field types' own decoders are external collaborators) or
absent.  `settings_version` is the exception: its value decoder is the
custom `SettingsVersion::deserialize` of this module, so the document
carries the raw unsigned integer. -/
structure SettingsDoc where
  relay_settings : Option RelaySettings := none
  bridge_settings : Option BridgeSettings := none
  obfuscation_settings : Option ObfuscationSettings := none
  bridge_state : Option BridgeState := none
  allow_lan : Option Bool := none
  block_when_disconnected : Option Bool := none
  auto_connect : Option Bool := none
  tunnel_options : Option TunnelOptions := none
  show_beta_releases : Option Bool := none
  settings_version : Option Nat := none
deriving DecidableEq

/-- The serde-derived `Deserialize for Settings` under the container
attribute `#[serde(default)]`: a field present in the document is decoded
with its own deserializer (for `settings_version`, the strict custom one,
whose failure aborts the whole decode); a field absent from the document
is taken from the corresponding field of `Settings::default()`. -/
def Settings.deserializeDoc (d : SettingsDoc) : Except String (Settings RelaySettings) :=
  match (match d.settings_version with
         | none => Except.ok Settings.default.settings_version
         | some n => SettingsVersion.deserialize n) with
  | .error e => .error e
  | .ok settings_version => .ok
    { relay_settings := d.relay_settings.getD Settings.default.relay_settings
      bridge_settings := d.bridge_settings.getD Settings.default.bridge_settings
      obfuscation_settings :=
        d.obfuscation_settings.getD Settings.default.obfuscation_settings
      bridge_state := d.bridge_state.getD Settings.default.bridge_state
      allow_lan := d.allow_lan.getD Settings.default.allow_lan
      block_when_disconnected :=
        d.block_when_disconnected.getD Settings.default.block_when_disconnected
      auto_connect := d.auto_connect.getD Settings.default.auto_connect
      tunnel_options := d.tunnel_options.getD Settings.default.tunnel_options
      show_beta_releases :=
        d.show_beta_releases.getD Settings.default.show_beta_releases
      settings_version }

/-- C1 counterexample: the document with every field absent — in
particular `settings_version` — decodes successfully (to the default
aggregate) instead of failing, because `#[serde(default)]` substitutes
`Settings::default().settings_version` for the absent field. -/
theorem c1_counterexample_absent_version_decodes :
    ({} : SettingsDoc).settings_version = none ∧
    Settings.deserializeDoc {} = Except.ok Settings.default :=
  ⟨rfl, rfl⟩

/-- C1 (amended): when `settings_version` is absent from the document,
decoding succeeds and the field takes its default value
`CURRENT_SETTINGS_VERSION`, like every other absent field; the strict
validation applies only when the field is present. -/
theorem c1_amended_absent_version_defaults_to_current
    (d : SettingsDoc) (h : d.settings_version = none) :
    ∃ s, Settings.deserializeDoc d = Except.ok s ∧
      s.settings_version = CURRENT_SETTINGS_VERSION := by
  unfold Settings.deserializeDoc
  rw [h]
  exact ⟨_, rfl, rfl⟩

/-- Witness for C1 (amended) at the all-absent document. -/
theorem c1_amended_witness :
    ∃ s, Settings.deserializeDoc {} = Except.ok s ∧
      s.settings_version = CURRENT_SETTINGS_VERSION :=
  c1_amended_absent_version_defaults_to_current {} rfl

/-- C8: the canonical default aggregate carries
`CURRENT_SETTINGS_VERSION` (encoding to 6), bridge state `Auto`,
obfuscation `Off`, relay settings constrained to country "se", and all
four policy booleans `false`. -/
theorem c8_default_settings :
    Settings.default.settings_version = CURRENT_SETTINGS_VERSION ∧
    CURRENT_SETTINGS_VERSION.serialize = 6 ∧
    Settings.default.bridge_state = BridgeState.Auto ∧
    Settings.default.obfuscation_settings.selected_obfuscation
      = SelectedObfuscation.Off ∧
    Settings.default.relay_settings
      = RelaySettings.Normal { location := .Only (.Country "se") } ∧
    Settings.default.allow_lan = false ∧
    Settings.default.block_when_disconnected = false ∧
    Settings.default.auto_connect = false ∧
    Settings.default.show_beta_releases = false :=
  ⟨rfl, rfl, rfl, rfl, rfl, rfl, rfl, rfl, rfl⟩

/-- C5: the document holding only `settings_version = 6` decodes to the
default aggregate; any field other than `settings_version` that is absent
is populated with the default aggregate's value for it; and whether
decoding succeeds depends only on the `settings_version` field — absence
of other fields never causes a failure. -/
theorem c5_default_on_absence :
    Settings.deserializeDoc { settings_version := some 6 }
      = Except.ok Settings.default ∧
    (∀ (d : SettingsDoc) (s : Settings RelaySettings),
      Settings.deserializeDoc d = Except.ok s →
      (d.relay_settings = none →
        s.relay_settings = Settings.default.relay_settings) ∧
      (d.bridge_settings = none →
        s.bridge_settings = Settings.default.bridge_settings) ∧
      (d.obfuscation_settings = none →
        s.obfuscation_settings = Settings.default.obfuscation_settings) ∧
      (d.bridge_state = none → s.bridge_state = Settings.default.bridge_state) ∧
      (d.allow_lan = none → s.allow_lan = Settings.default.allow_lan) ∧
      (d.block_when_disconnected = none →
        s.block_when_disconnected = Settings.default.block_when_disconnected) ∧
      (d.auto_connect = none → s.auto_connect = Settings.default.auto_connect) ∧
      (d.tunnel_options = none →
        s.tunnel_options = Settings.default.tunnel_options) ∧
      (d.show_beta_releases = none →
        s.show_beta_releases = Settings.default.show_beta_releases)) ∧
    (∀ d d' : SettingsDoc, d.settings_version = d'.settings_version →
      ((∃ s, Settings.deserializeDoc d = Except.ok s) ↔
       (∃ s, Settings.deserializeDoc d' = Except.ok s))) := by
  refine ⟨rfl, ?_, ?_⟩
  · intro d s h
    cases hv : d.settings_version with
    | none =>
      simp only [Settings.deserializeDoc, hv, Except.ok.injEq] at h
      obtain rfl := h
      refine ⟨?_, ?_, ?_, ?_, ?_, ?_, ?_, ?_, ?_⟩ <;> intro hf <;> simp [hf]
    | some n =>
      cases hd : SettingsVersion.deserialize n with
      | error e =>
        simp [Settings.deserializeDoc, hv, hd] at h
      | ok v =>
        simp only [Settings.deserializeDoc, hv, hd, Except.ok.injEq] at h
        obtain rfl := h
        refine ⟨?_, ?_, ?_, ?_, ?_, ?_, ?_, ?_, ?_⟩ <;> intro hf <;> simp [hf]
  · intro d d' h
    cases hv : d.settings_version with
    | none =>
      simp [Settings.deserializeDoc, hv, (h.symm.trans hv : d'.settings_version = none)]
    | some n =>
      have hv' : d'.settings_version = some n := h.symm.trans hv
      cases hd : SettingsVersion.deserialize n with
      | error e => simp [Settings.deserializeDoc, hv, hv', hd]
      | ok v => simp [Settings.deserializeDoc, hv, hv', hd]

/-- A document with `allow_lan` present (true), `settings_version`
present (2), and every other field absent, with its decode result. -/
def docA : SettingsDoc :=
  { allow_lan := some true, settings_version := some 2 }

/-- The aggregate `docA` decodes to: defaults everywhere except the two
fields present in the document. -/
def settingsA : Settings RelaySettings :=
  { Settings.default with allow_lan := true, settings_version := .V2 }

/-- Witness for C5: decoding `docA` leaves the absent `relay_settings`
at its default, and decode success is unaffected by dropping the present
`allow_lan` field. -/
theorem c5_default_on_absence_witness :
    settingsA.relay_settings = Settings.default.relay_settings ∧
    ((∃ s, Settings.deserializeDoc docA = Except.ok s) ↔
     (∃ s, Settings.deserializeDoc { settings_version := some 2 } = Except.ok s)) :=
  ⟨(c5_default_on_absence.2.1 docA settingsA rfl).1 rfl,
   c5_default_on_absence.2.2 docA { settings_version := some 2 } rfl⟩

end Mullvad
